import Mathlib

/-
Verification of the registry constants module of the oasis-sdk
(client-sdk/ts-web/core/src/registry.ts) and the test-runner
configuration (client-sdk/ts-web/rt/cypress.config.ts).

Each exported constant of registry.ts is embedded as a Lean definition
with the same name and literal value; the configuration object is
embedded as a structure value.  The claims are stated and proved below
the definitions.
-/

namespace registry

/-- RegisterEntitySignatureContext is the context used for entity registration. -/
def REGISTER_ENTITY_SIGNATURE_CONTEXT : String := "oasis-core/registry: register entity"

/-- RegisterGenesisEntitySignatureContext is the context used for entity
registration in the genesis document; defined as an alias of the
non-genesis context. -/
def REGISTER_GENESIS_ENTITY_SIGNATURE_CONTEXT : String := REGISTER_ENTITY_SIGNATURE_CONTEXT

/-- RegisterNodeSignatureContext is the context used for node registration. -/
def REGISTER_NODE_SIGNATURE_CONTEXT : String := "oasis-core/registry: register node"

/-- RegisterGenesisNodeSignatureContext is the context used for node
registration in the genesis document; defined as an alias of the
non-genesis context. -/
def REGISTER_GENESIS_NODE_SIGNATURE_CONTEXT : String := REGISTER_NODE_SIGNATURE_CONTEXT

/-- MethodRegisterEntity is the method name for entity registrations. -/
def METHOD_REGISTER_ENTITY : String := "registry.RegisterEntity"

/-- MethodDeregisterEntity is the method name for entity deregistrations. -/
def METHOD_DEREGISTER_ENTITY : String := "registry.DeregisterEntity"

/-- MethodRegisterNode is the method name for node registrations. -/
def METHOD_REGISTER_NODE : String := "registry.RegisterNode"

/-- MethodUnfreezeNode is the method name for unfreezing nodes. -/
def METHOD_UNFREEZE_NODE : String := "registry.UnfreezeNode"

/-- MethodRegisterRuntime is the method name for registering runtimes. -/
def METHOD_REGISTER_RUNTIME : String := "registry.RegisterRuntime"

/-- The five RPC method-name constants, in source order. -/
def methodNames : List String :=
  [METHOD_REGISTER_ENTITY, METHOD_DEREGISTER_ENTITY, METHOD_REGISTER_NODE,
   METHOD_UNFREEZE_NODE, METHOD_REGISTER_RUNTIME]

/-- GasOpRegisterEntity is the gas operation identifier for entity registration. -/
def GAS_OP_REGISTER_ENTITY : String := "register_entity"

/-- GasOpDeregisterEntity is the gas operation identifier for entity deregistration. -/
def GAS_OP_DEREGISTER_ENTITY : String := "deregister_entity"

/-- GasOpRegisterNode is the gas operation identifier for node registration. -/
def GAS_OP_REGISTER_NODE : String := "register_node"

/-- GasOpUnfreezeNode is the gas operation identifier for unfreezing nodes. -/
def GAS_OP_UNFREEZE_NODE : String := "unfreeze_node"

/-- GasOpRegisterRuntime is the gas operation identifier for runtime registration. -/
def GAS_OP_REGISTER_RUNTIME : String := "register_runtime"

/-- GasOpRuntimeEpochMaintenance is the gas operation identifier for per-epoch
runtime maintenance costs. -/
def GAS_OP_RUNTIME_EPOCH_MAINTENANCE : String := "runtime_epoch_maintenance"

/-- GasOpUpdateKeyManager is the gas operation identifier for key manager
policy update costs. -/
def GAS_OP_UPDATEKEY_MANAGER : String := "update_keymanager"

/-- The seven gas-operation identifiers, in source order. -/
def gasOps : List String :=
  [GAS_OP_REGISTER_ENTITY, GAS_OP_DEREGISTER_ENTITY, GAS_OP_REGISTER_NODE,
   GAS_OP_UNFREEZE_NODE, GAS_OP_REGISTER_RUNTIME,
   GAS_OP_RUNTIME_EPOCH_MAINTENANCE, GAS_OP_UPDATEKEY_MANAGER]

/-- KindInvalid is an invalid runtime and should never be explicitly set. -/
def KIND_INVALID : Nat := 0

/-- KindCompute is a generic compute runtime. -/
def KIND_COMPUTE : Nat := 1

/-- KindKeyManager is a key manager runtime. -/
def KIND_KEY_MANAGER : Nat := 2

/-- GovernanceInvalid governance model sentinel. -/
def GOVERNANCE_INVALID : Nat := 0

/-- GovernanceEntity governance model. -/
def GOVERNANCE_ENTITY : Nat := 1

/-- GovernanceRuntime governance model. -/
def GOVERNANCE_RUNTIME : Nat := 2

/-- GovernanceConsensus governance model. -/
def GOVERNANCE_CONSENSUS : Nat := 3

/-- GovernanceMax is defined in the source as GOVERNANCE_CONSENSUS. -/
def GOVERNANCE_MAX : Nat := GOVERNANCE_CONSENSUS

/-- The defined non-sentinel governance values (everything except the
sentinel GOVERNANCE_INVALID). -/
def nonSentinelGovernanceValues : List Nat :=
  [GOVERNANCE_ENTITY, GOVERNANCE_RUNTIME, GOVERNANCE_CONSENSUS]

/-- LatestRuntimeDescriptorVersion is the latest runtime descriptor version
that should be used for all new descriptors. -/
def LATEST_RUNTIME_DESCRIPTOR_VERSION : Nat := 2

/-- ModuleName is a unique module name for the registry module. -/
def MODULE_NAME : String := "registry"

/-- ErrInvalidArgument is the error returned on malformed argument(s). -/
def CODE_INVALID_ARGUMENT : Nat := 1

/-- ErrInvalidSignature is the error returned on an invalid signature. -/
def CODE_INVALID_SIGNATURE : Nat := 2

/-- ErrBadEntityForNode is the error returned when a node registration with an
unknown entity is attempted. -/
def CODE_BAD_ENTITY_FOR_NODE : Nat := 3

/-- ErrBadEntityForRuntime is the error returned when a runtime attempts to
register with an unknown entity. -/
def CODE_BAD_ENTITY_FOR_RUNTIME : Nat := 4

/-- ErrNoEnclaveForRuntime is the error returned when a TEE runtime registers
with no enclave IDs. -/
def CODE_NO_ENCLAVE_FOR_RUNTIME : Nat := 5

/-- ErrBadEnclaveIdentity is the error returned when a node tries to register
runtimes with wrong Enclave IDs. -/
def CODE_BAD_ENCLAVE_IDENTITY : Nat := 6

/-- ErrBadCapabilitiesTEEHardware is the error returned when a node tries to
register a runtime with bad Capabilities.TEE.Hardware. -/
def CODE_BAD_CAPABILITIES_TEE_HARDWARE : Nat := 7

/-- ErrTEEHardwareMismatch is the error returned when Capabilities.TEE.Hardware
mismatches the one in the registry. -/
def CODE_TEE_HARDWARE_MISMATCH : Nat := 8

/-- ErrNoSuchEntity is the error returned when an entity does not exist. -/
def CODE_NO_SUCH_ENTITY : Nat := 9

/-- ErrNoSuchNode is the error returned when a node does not exist. -/
def CODE_NO_SUCH_NODE : Nat := 10

/-- ErrNoSuchRuntime is the error returned when a runtime does not exist. -/
def CODE_NO_SUCH_RUNTIME : Nat := 11

/-- ErrIncorrectTxSigner is the error returned when the signer of the
transaction is not the correct one. -/
def CODE_INCORRECT_TX_SIGNER : Nat := 12

/-- ErrNodeExpired is the error returned when a node is expired. -/
def CODE_NODE_EXPIRED : Nat := 13

/-- ErrNodeCannotBeUnfrozen is the error returned when a node cannot yet be
unfrozen due to the freeze period not being over yet. -/
def CODE_NODE_CANNOT_BE_UNFROZEN : Nat := 14

/-- ErrEntityHasNodes is the error returned when an entity cannot be
deregistered as it still has nodes. -/
def CODE_ENTITY_HAS_NODES : Nat := 15

/-- ErrForbidden is the error returned when an operation is forbidden by policy. -/
def CODE_FORBIDDEN : Nat := 16

/-- ErrNodeUpdateNotAllowed is the error returned when trying to update an
existing node with disallowed changes. -/
def CODE_NODE_UPDATE_NOT_ALLOWED : Nat := 17

/-- ErrRuntimeUpdateNotAllowed is the error returned when trying to update an
existing runtime. -/
def CODE_RUNTIME_UPDATE_NOT_ALLOWED : Nat := 18

/-- ErrEntityHasRuntimes is the error returned when an entity cannot be
deregistered as it still has runtimes. -/
def CODE_ENTITY_HAS_RUNTIMES : Nat := 19

/-- The nineteen error-code constants paired with the documented failure
condition named in each constant's doc comment, in source order. -/
def errorTable : List (Nat × String) :=
  [(CODE_INVALID_ARGUMENT, "invalid argument"),
   (CODE_INVALID_SIGNATURE, "invalid signature"),
   (CODE_BAD_ENTITY_FOR_NODE, "bad entity for node"),
   (CODE_BAD_ENTITY_FOR_RUNTIME, "bad entity for runtime"),
   (CODE_NO_ENCLAVE_FOR_RUNTIME, "no enclave for runtime"),
   (CODE_BAD_ENCLAVE_IDENTITY, "bad enclave identity"),
   (CODE_BAD_CAPABILITIES_TEE_HARDWARE, "bad capabilities TEE hardware"),
   (CODE_TEE_HARDWARE_MISMATCH, "TEE hardware mismatch"),
   (CODE_NO_SUCH_ENTITY, "no such entity"),
   (CODE_NO_SUCH_NODE, "no such node"),
   (CODE_NO_SUCH_RUNTIME, "no such runtime"),
   (CODE_INCORRECT_TX_SIGNER, "incorrect tx signer"),
   (CODE_NODE_EXPIRED, "node expired"),
   (CODE_NODE_CANNOT_BE_UNFROZEN, "node cannot be unfrozen"),
   (CODE_ENTITY_HAS_NODES, "entity has nodes"),
   (CODE_FORBIDDEN, "forbidden"),
   (CODE_NODE_UPDATE_NOT_ALLOWED, "node update not allowed"),
   (CODE_RUNTIME_UPDATE_NOT_ALLOWED, "runtime update not allowed"),
   (CODE_ENTITY_HAS_RUNTIMES, "entity has runtimes")]

/-- The nineteen error codes, in source order. -/
def errorCodes : List Nat := errorTable.map Prod.fst

end registry

/-- The value of a test-runner node-events hook.  The repository wires the
configuration to a function imported from an external helper module; only
the identity of the reference matters here, so a handler is represented by
an abstract tag naming its origin. -/
inductive NodeEventsHandler where
  | external (origin : String)
deriving DecidableEq

namespace outputConsoleLogs

/-- Modelled from the spec: the external helper module
core/cypress/outputConsoleLogs (not among the provided sources) exports a
setupNodeEvents function to which the test-runner configuration delegates
event-hook setup; it is represented as an abstract handler tagged with its
origin. -/
def setupNodeEvents : NodeEventsHandler := .external "outputConsoleLogs.setupNodeEvents"

end outputConsoleLogs

/-- The e2e block of the cypress configuration. -/
structure E2EConfig where
  supportFile : Bool
  setupNodeEvents : NodeEventsHandler
deriving DecidableEq

/-- The cypress configuration object (fields used by cypress.config.ts). -/
structure CypressConfig where
  video : Bool
  e2e : E2EConfig
deriving DecidableEq

/-- The default-exported configuration of client-sdk/ts-web/rt/cypress.config.ts. -/
def cypressConfig : CypressConfig :=
  { video := false
    e2e :=
      { supportFile := false
        setupNodeEvents := outputConsoleLogs.setupNodeEvents } }

namespace registry

/-- Claim C1: the genesis signature contexts are string-equal aliases of their
non-genesis counterparts. -/
theorem C1_genesis_contexts_alias :
    REGISTER_GENESIS_ENTITY_SIGNATURE_CONTEXT = REGISTER_ENTITY_SIGNATURE_CONTEXT ∧
    REGISTER_GENESIS_NODE_SIGNATURE_CONTEXT = REGISTER_NODE_SIGNATURE_CONTEXT :=
  ⟨rfl, rfl⟩

/-- Claim C2: the nineteen error-code constants take exactly the values 1
through 19 in order, are pairwise distinct, and each code is paired with
exactly one documented failure condition (the pairing in errorTable is a
bijection between the codes and the nineteen condition descriptions). -/
theorem C2_error_codes :
    errorCodes = List.range' 1 19 ∧
    errorCodes.Nodup ∧
    (errorTable.map Prod.snd).Nodup ∧
    errorTable.length = 19 := by
  refine ⟨by decide, by decide, by decide, by decide⟩

/-- Claim C3: the two base signature-context constants equal the exact wire
literals, byte for byte. -/
theorem C3_signature_context_literals :
    REGISTER_ENTITY_SIGNATURE_CONTEXT = "oasis-core/registry: register entity" ∧
    REGISTER_NODE_SIGNATURE_CONTEXT = "oasis-core/registry: register node" :=
  ⟨rfl, rfl⟩

/-- Claim C4: MODULE_NAME equals "registry", the five RPC method constants
equal their exact literals, and every method-name string starts with the
prefix MODULE_NAME followed by a dot. -/
theorem C4_method_names :
    MODULE_NAME = "registry" ∧
    METHOD_REGISTER_ENTITY = "registry.RegisterEntity" ∧
    METHOD_DEREGISTER_ENTITY = "registry.DeregisterEntity" ∧
    METHOD_REGISTER_NODE = "registry.RegisterNode" ∧
    METHOD_UNFREEZE_NODE = "registry.UnfreezeNode" ∧
    METHOD_REGISTER_RUNTIME = "registry.RegisterRuntime" ∧
    methodNames.all (fun m => (MODULE_NAME ++ ".").data.isPrefixOf m.data) = true := by
  refine ⟨rfl, rfl, rfl, rfl, rfl, rfl, by decide⟩

/-- Claim C5: GOVERNANCE_MAX equals GOVERNANCE_CONSENSUS and equals the
maximum of all defined non-sentinel governance values, namely 3. -/
theorem C5_governance_max :
    GOVERNANCE_MAX = GOVERNANCE_CONSENSUS ∧
    GOVERNANCE_MAX = nonSentinelGovernanceValues.foldr max 0 ∧
    GOVERNANCE_MAX = 3 :=
  ⟨rfl, rfl, rfl⟩

/-- Claim C6: the RuntimeKind and GovernanceModel enumeration constants have
exactly the listed values, with 0 the sentinel Invalid value in each. -/
theorem C6_enum_values :
    KIND_INVALID = 0 ∧ KIND_COMPUTE = 1 ∧ KIND_KEY_MANAGER = 2 ∧
    GOVERNANCE_INVALID = 0 ∧ GOVERNANCE_ENTITY = 1 ∧
    GOVERNANCE_RUNTIME = 2 ∧ GOVERNANCE_CONSENSUS = 3 :=
  ⟨rfl, rfl, rfl, rfl, rfl, rfl, rfl⟩

/-- Claim C7: the seven gas-operation constants equal exactly the snake_case
string literals matching their names. -/
theorem C7_gas_op_literals :
    GAS_OP_REGISTER_ENTITY = "register_entity" ∧
    GAS_OP_DEREGISTER_ENTITY = "deregister_entity" ∧
    GAS_OP_REGISTER_NODE = "register_node" ∧
    GAS_OP_UNFREEZE_NODE = "unfreeze_node" ∧
    GAS_OP_REGISTER_RUNTIME = "register_runtime" ∧
    GAS_OP_RUNTIME_EPOCH_MAINTENANCE = "runtime_epoch_maintenance" ∧
    GAS_OP_UPDATEKEY_MANAGER = "update_keymanager" :=
  ⟨rfl, rfl, rfl, rfl, rfl, rfl, rfl⟩

/-- Claim C9: within each group of wire-identifier strings the values are
pairwise distinct: the two non-genesis signature contexts differ, the five
method names are pairwise distinct, and the seven gas-operation identifiers
are pairwise distinct. -/
theorem C9_group_distinctness :
    REGISTER_ENTITY_SIGNATURE_CONTEXT ≠ REGISTER_NODE_SIGNATURE_CONTEXT ∧
    methodNames.Nodup ∧
    gasOps.Nodup := by
  refine ⟨by decide, by decide, by decide⟩

end registry

/-- Claim C8: LATEST_RUNTIME_DESCRIPTOR_VERSION equals 2. -/
theorem C8_latest_descriptor_version :
    registry.LATEST_RUNTIME_DESCRIPTOR_VERSION = 2 :=
  rfl

/-- Claim C10: the default-exported test-runner configuration has video
recording disabled, loads no support file, and delegates event-hook setup to
the imported helper function. -/
theorem C10_cypress_config :
    cypressConfig.video = false ∧
    cypressConfig.e2e.supportFile = false ∧
    cypressConfig.e2e.setupNodeEvents = outputConsoleLogs.setupNodeEvents :=
  ⟨rfl, rfl, rfl⟩
